import Mathlib

set_option maxRecDepth 100000

/-!
Verification of the Bundesliga coach RAG chatbot query-resolution pipeline.

This file gives a shallow embedding, over lists of characters, of the
pipeline implemented in `main.py`, `src/entity_extractor.py` and
`src/prompt_builder.py`: entity extraction by an ordered list of regular
expression patterns, club resolution against a cached roster, the coach
and biography fetches (modelled as oracles, since they are network calls),
and deterministic prompt assembly.  Machine strings are Lean `String`s
manipulated through their `data` lists; Python truthiness of `None` and
the empty string is modelled explicitly.
-/

/-- Character class of Python regular expression `\w` (ASCII model):
letters, digits, or underscore. -/
def isWordChar (c : Char) : Bool := c.isAlphanum || c == '_'

/-- Character class of Python regular expression `\s` and of the default
`str.strip` whitespace set (ASCII model). -/
def isSpaceChar (c : Char) : Bool :=
  c == ' ' || c == '\t' || c == '\n' || c == '\r' || c == '\x0b' || c == '\x0c'

/-- `startsWithL needle hay` holds when `needle` is an initial segment of
`hay`; used to model matching a regex literal at a position. -/
def startsWithL : List Char → List Char → Bool
  | [], _ => true
  | _ :: _, [] => false
  | a :: as, b :: bs => a == b && startsWithL as bs

/-- Auxiliary scan for Python substring membership: does `needle` occur
as a contiguous run somewhere in the haystack? -/
def strContainsAux (needle : List Char) : List Char → Bool
  | [] => startsWithL needle []
  | b :: bs => startsWithL needle (b :: bs) || strContainsAux needle bs

/-- Embedding of the Python expression `needle in hay` on strings. -/
def pyIn (needle hay : String) : Bool := strContainsAux needle.data hay.data

/-- Embedding of Python `str.lower()` (ASCII model, as in the source data). -/
def pyLower (s : String) : String := String.mk (s.data.map Char.toLower)

/-- Embedding of Python `str.strip()`: drop whitespace from both ends. -/
def pyStrip (s : String) : String :=
  String.mk (((s.data.dropWhile isSpaceChar).reverse.dropWhile isSpaceChar).reverse)

/-- `strEndsWith s t` holds when `t` is a final segment of `s`. -/
def strEndsWith (s t : String) : Bool := startsWithL t.data.reverse s.data.reverse

/-- Match the regex fragment `\s+(\w+)` at the head of `l`: one or more
whitespace characters, then a maximal nonempty run of word characters,
which is the captured group.  Both runs are maximal-munch, which agrees
with the greedy regex semantics because the two classes are disjoint. -/
def spacesThenWord (l : List Char) : Option String :=
  if (l.takeWhile isSpaceChar).isEmpty then none
  else
    let w := (l.dropWhile isSpaceChar).takeWhile isWordChar
    if w.isEmpty then none else some (String.mk w)

/-- Match the regex fragment `\s+manager` at the head of `l`. -/
def spacesThenManager (l : List Char) : Bool :=
  !(l.takeWhile isSpaceChar).isEmpty &&
    startsWithL "manager".data (l.dropWhile isSpaceChar)

/-- Match `coach(?:ing)?\s+(\w+)` (pattern 1 of `_extract_entity_logic`)
anchored at the head of `l`, with the greedy optional group tried first
and backtracking to the shorter alternative, as the regex engine does. -/
def matchCoachAt (l : List Char) : Option String :=
  if startsWithL "coach".data l then
    let rest := l.drop 5
    if startsWithL "ing".data rest then
      match spacesThenWord (rest.drop 3) with
      | some t => some t
      | none => spacesThenWord rest
    else spacesThenWord rest
  else none

/-- Match `kw\s+(\w+)` (patterns 2, 4 and 5 of `_extract_entity_logic`,
for the keywords "about", "for" and "in") anchored at the head of `l`. -/
def matchKwAt (kw : List Char) (l : List Char) : Option String :=
  if startsWithL kw l then spacesThenWord (l.drop kw.length) else none

/-- Backtracking loop for the capture group of `(\w+)s?\s+manager`:
try the capture lengths from the maximal word run downwards, for each
trying the optional `s` greedily first; the regex engine accepts the
first length whose continuation matches. -/
def managerTryLen (l : List Char) : Nat → Option String
  | 0 => none
  | k + 1 =>
    let tail := l.drop (k + 1)
    let withS : Bool :=
      match tail with
      | 's' :: t2 => spacesThenManager t2
      | _ => false
    if withS || spacesThenManager tail then some (String.mk (l.take (k + 1)))
    else managerTryLen l k

/-- Match `(\w+)s?\s+manager` (pattern 3 of `_extract_entity_logic`)
anchored at the head of `l`. -/
def matchManagerAt (l : List Char) : Option String :=
  managerTryLen l ((l.takeWhile isWordChar).length)

/-- Embedding of `re.search`: try the anchored matcher at every position
from left to right (including the empty suffix) and return the first
success, which is the leftmost match. -/
def searchL (m : List Char → Option String) : List Char → Option String
  | [] => m []
  | c :: cs =>
    match m (c :: cs) with
    | some t => some t
    | none => searchL m cs

/-- Pattern 1 of `_extract_entity_logic`: `re.search(r'coach(?:ing)?\s+(\w+)', q)`. -/
def pattern_coach (q : String) : Option String := searchL matchCoachAt q.data

/-- Pattern 2 of `_extract_entity_logic`: `re.search(r'about\s+(\w+)', q)`. -/
def pattern_about (q : String) : Option String := searchL (matchKwAt "about".data) q.data

/-- Pattern 3 of `_extract_entity_logic`: `re.search(r'(\w+)s?\s+manager', q)`. -/
def pattern_manager (q : String) : Option String := searchL matchManagerAt q.data

/-- Pattern 4 of `_extract_entity_logic`: `re.search(r'for\s+(\w+)', q)`. -/
def pattern_for (q : String) : Option String := searchL (matchKwAt "for".data) q.data

/-- Pattern 5 of `_extract_entity_logic`: `re.search(r'in\s+(\w+)', q)`. -/
def pattern_in (q : String) : Option String := searchL (matchKwAt "in".data) q.data

/-- The pattern list of `_extract_entity_logic` in its fixed order:
coach(ing), about, manager, for, in. -/
def patternAt : Nat → String → Option String
  | 0, q => pattern_coach q
  | 1, q => pattern_about q
  | 2, q => pattern_manager q
  | 3, q => pattern_for q
  | _, q => pattern_in q

/-- Embedding of `EntityExtractor._extract_entity_logic`: the five
patterns are tried in order and the first match wins; if none matches
the function returns `None`. -/
def extract_entity_logic (q : String) : Option String :=
  match pattern_coach q with
  | some e => some e
  | none =>
    match pattern_about q with
    | some e => some e
    | none =>
      match pattern_manager q with
      | some e => some e
      | none =>
        match pattern_for q with
        | some e => some e
        | none => pattern_in q

/-- Embedding of `EntityExtractor.extract_city`: lowercase and strip the
question, then run the pattern logic. -/
def extract_city (q : String) : Option String :=
  extract_entity_logic (pyStrip (pyLower q))

/-- A club record as produced by `WikidataClient._process_club_results`:
the dict keys `club_name`, `city`, `club_uri`, `club_qid`. -/
structure Club where
  club_name : String
  city : String
  club_uri : String
  club_qid : String
deriving DecidableEq

/-- A coach record as produced by `WikidataClient._process_coach_results`:
the dict keys `name` and `qid`. -/
structure Coach where
  name : String
  qid : String
deriving DecidableEq

/-- The orchestrator state: the `clubs_cache` attribute of
`BundesligaCoachRAGChatbot`, `None` before initialization. -/
structure ChatbotState where
  clubs_cache : Option (List Club)
deriving DecidableEq

/-- The two per-query network calls, modelled as oracles.
`get_coach_for_club` embeds `WikidataClient.get_coach_for_club`, which
re-raises transport and query failures (`Except.error`) and returns
`none` when the club has no recorded coach.  `get_coach_intro` embeds
`WikipediaClient.get_coach_intro`, which catches every exception
internally and maps all failures to `None`. -/
structure Oracles where
  get_coach_for_club : String → Except Unit (Option Coach)
  get_coach_intro : String → Option String

/-- The scan of the special branch of `find_club_by_city` for the token
"pauli": the first club whose lowercased name contains "pauli". -/
def pauli_scan : List Club → Option Club
  | [] => none
  | c :: rest =>
    if pyIn "pauli" (pyLower c.club_name) then some c else pauli_scan rest

/-- The general loop of `find_club_by_city`: for each club in stored
order, return it if the token is a substring of the lowercased city, or
the lowercased city is a substring of the token, or the token is a
substring of the lowercased club name. -/
def normal_scan (cid : String) : List Club → Option Club
  | [] => none
  | c :: rest =>
    if pyIn cid (pyLower c.city) || pyIn (pyLower c.city) cid then some c
    else if pyIn cid (pyLower c.club_name) then some c
    else normal_scan cid rest

/-- Embedding of `BundesligaCoachRAGChatbot.find_club_by_city`: fail when
the cache is `None` or empty (Python falsiness of `self.clubs_cache`);
for the literal token "pauli" first scan for a club whose name contains
"pauli" and fall through to the general scan when none does. -/
def find_club_by_city (cache : Option (List Club)) (cid : String) : Option Club :=
  match cache with
  | none => none
  | some clubs =>
    if clubs.isEmpty then none
    else if cid = "pauli" then
      match pauli_scan clubs with
      | some c => some c
      | none => normal_scan cid clubs
    else normal_scan cid clubs

/-- The static system instruction block of `PromptBuilder._get_system_prompt`. -/
def get_system_prompt : String :=
  "SYSTEM PROMPT:\nYou are a helpful assistant an expert in Germany\x60s 1. Bundesliga football (soccer).\nYou answer questions about coaches of clubs in Germany\x27s 1. Bundesliga.\nYou must use only the information provided in the retrieved context below. You must never assume.\nBe concise but informative in your responses.\nProvide the coach\x27s name and relevant information about them."

/-- The sentence appended by `PromptBuilder._build_context` when no
biography is available (including its leading newline from the list
entry that the join concatenates). -/
def no_bio_sentence : String :=
  "\nCoach Information: No additional biographical information available from Wikipedia."

/-- Embedding of `PromptBuilder._build_context`: the joined context
lines; the biography branch follows Python truthiness, so `None` and the
empty string both produce the no-biography sentence. -/
def build_context (club_name city coach_name : String) (coach_intro : Option String) : String :=
  "City: " ++ city ++ "\nClub: " ++ club_name ++ "\nCurrent Coach: " ++ coach_name ++ "\n" ++
    (match coach_intro with
     | some b =>
       if b.isEmpty then no_bio_sentence
       else "\nCoach Information from Wikipedia:\n" ++ b
     | none => no_bio_sentence)

/-- Embedding of `PromptBuilder.build_prompt`: system prompt, retrieved
context, the verbatim user question, and the fixed closing line. -/
def build_prompt (user_question club_name city coach_name : String)
    (coach_intro : Option String) : String :=
  get_system_prompt ++ "\n\nRETRIEVED CONTEXT:\n" ++
    build_context club_name city coach_name coach_intro ++
    "\n\nUSER QUESTION:\n" ++ user_question ++
    "\n\nPlease answer the user\x27s question using the provided context."

/-- Embedding of `BundesligaCoachRAGChatbot._format_error_response`. -/
def format_error_response (error_message : String) : String :=
  "ERROR: " ++ error_message ++
    "\n\nDear user, the Germany\x60s 1. Bundesliga RAG-Chatbot system was unable to retrieve the necessary information to answer your question.\nPlease check your input and try again.\n\nExamples of valid questions:\n  - Who is coaching Berlin?\n  - What about munich?\n  - Who is heidenheims manager?\n  - Who is it for Pauli?"

/-- The extraction-miss message of `process_query`. -/
def extraction_miss_msg : String :=
  "Dear user, I could not identify a city or club in your question. Please, use the required question format and specify which city or club you\x27re asking about."

/-- The resolution-miss message of `process_query`, naming the token. -/
def resolution_miss_msg (cid : String) : String :=
  "Dear user, I could not find a Bundesliga club for \x27" ++ cid ++
    "\x27. Please, use the required question format or check the city name."

/-- The coach-miss message of `process_query`, naming the club. -/
def coach_miss_msg (club_name : String) : String :=
  "Could not find current coach information for " ++ club_name ++
    ". The data may not be available in Wikidata."

/-- The generic message of the outermost exception handler of `process_query`. -/
def generic_error_msg : String :=
  "Dear user, an unexpected error occurred while processing your question. Please try again."

/-- The body of the `try` block of `process_query`: the pipeline steps in
order, short-circuiting to a formatted error string on extraction miss
(Python falsiness: `None` or empty token), resolution miss, and coach
miss, and propagating exceptions (`Except.error`) from the coach fetch. -/
def process_query_body (o : Oracles) (cache : Option (List Club)) (q : String) :
    Except Unit String :=
  match extract_city q with
  | none => Except.ok (format_error_response extraction_miss_msg)
  | some cid =>
    if cid = "" then Except.ok (format_error_response extraction_miss_msg)
    else
      match find_club_by_city cache cid with
      | none => Except.ok (format_error_response (resolution_miss_msg cid))
      | some club =>
        match o.get_coach_for_club club.club_qid with
        | Except.error e => Except.error e
        | Except.ok none =>
          Except.ok (format_error_response (coach_miss_msg club.club_name))
        | Except.ok (some coach) =>
          Except.ok (build_prompt q club.club_name club.city coach.name
            (o.get_coach_intro coach.name))

/-- Embedding of `BundesligaCoachRAGChatbot.process_query`: run the body
and convert any escaped exception into the generic user-facing error
string; the method never writes `clubs_cache`, so the state is returned
unchanged. -/
def process_query (o : Oracles) (s : ChatbotState) (q : String) : String × ChatbotState :=
  match process_query_body o s.clubs_cache q with
  | Except.ok r => (r, s)
  | Except.error _ => (format_error_response generic_error_msg, s)

/-- The club record of the case-insensitivity scenarios. -/
def union_berlin : Club :=
  { club_name := "1. FC Union Berlin", city := "Berlin",
    club_uri := "http://www.wikidata.org/entity/Q160302", club_qid := "Q160302" }

/-- A one-club roster used by the casing scenarios. -/
def casing_roster : List Club := [union_berlin]

/-- The coach record of the Berlin scenario. -/
def scenario_coach : Coach := { name := "Steffen Baumgart", qid := "Q1791937" }

/-- The biography text of the Berlin scenario. -/
def scenario_bio : String :=
  "Steffen Baumgart is a German football manager and former player."

/-- Oracles of the Berlin scenario: the coach fetch succeeds and the
biography is available. -/
def scenario_oracles : Oracles :=
  { get_coach_for_club := fun _ => Except.ok (some scenario_coach),
    get_coach_intro := fun _ => some scenario_bio }

/-- Orchestrator state of the Berlin scenario: the roster holds
1. FC Union Berlin. -/
def scenario_state : ChatbotState := { clubs_cache := some casing_roster }

/-- The prompt rendered by the full pipeline in the Berlin scenario. -/
def scenario_prompt : String :=
  (process_query scenario_oracles scenario_state "Who is coaching Berlin?").1

/-- Oracles whose coach fetch succeeds but whose biography fetch finds
nothing. -/
def no_bio_oracles : Oracles :=
  { get_coach_for_club := fun _ => Except.ok (some scenario_coach),
    get_coach_intro := fun _ => none }

/-- Oracles whose coach fetch raises (models a transport failure). -/
def failing_oracles : Oracles :=
  { get_coach_for_club := fun _ => Except.error (),
    get_coach_intro := fun _ => none }

/-- Oracles whose coach fetch succeeds with no recorded coach. -/
def no_coach_oracles : Oracles :=
  { get_coach_for_club := fun _ => Except.ok none,
    get_coach_intro := fun _ => none }

/-- The orchestrator state before `initialize_clubs_data` has run. -/
def uninitialized_state : ChatbotState := { clubs_cache := none }

/-- FC St. Pauli, whose name contains "pauli". -/
def st_pauli : Club :=
  { club_name := "FC St. Pauli", city := "Hamburg",
    club_uri := "http://www.wikidata.org/entity/Q105775", club_qid := "Q105775" }

/-- Hamburger SV, the second club of the city of Hamburg. -/
def hamburger_sv : Club :=
  { club_name := "Hamburger SV", city := "Hamburg",
    club_uri := "http://www.wikidata.org/entity/Q23033", club_qid := "Q23033" }

/-- A club whose name does not contain "pauli" but whose city contains
it as a substring, exercising the fall-through of the special rule. -/
def pauli_city_club : Club :=
  { club_name := "SV Beispiel", city := "Paulital",
    club_uri := "http://www.wikidata.org/entity/Q999999", club_qid := "Q999999" }

/-- The second projection of `process_query` is always the unchanged
input state: the method never writes `clubs_cache`. -/
theorem process_query_snd (o : Oracles) (s : ChatbotState) (q : String) :
    (process_query o s q).2 = s := by
  unfold process_query
  cases process_query_body o s.clubs_cache q <;> rfl

/-- The special-rule scan equals `List.find?` of the "pauli"-in-name
predicate. -/
theorem pauli_scan_eq_find (clubs : List Club) :
    pauli_scan clubs = clubs.find? (fun c => pyIn "pauli" (pyLower c.club_name)) := by
  induction clubs with
  | nil => rfl
  | cons c rest ih =>
    by_cases h : pyIn "pauli" (pyLower c.club_name)
    · simp [pauli_scan, List.find?_cons_of_pos, h]
    · simp [pauli_scan, List.find?_cons_of_neg, h, ih]

/-- Claim C2 (counterexample): `find_club_by_city` applied directly to
the uppercased token "BERLIN" does not return the same record as for
"berlin" — the function performs no lowercasing of its argument, so it
is not case-insensitive in the token. -/
theorem find_club_by_city_casing_counterexample :
    find_club_by_city (some casing_roster) "BERLIN" ≠
      find_club_by_city (some casing_roster) "berlin" := by decide

/-- Claim C2 (amended): resolution is case-insensitive with respect to
the question because extraction lowercases before resolving: for any two
questions equal up to letter case, extraction returns the same token and
extraction followed by `find_club_by_city` returns the same club record.
`find_club_by_city` itself expects an already-lowercased token. -/
theorem resolution_case_insensitive_via_extraction
    (q1 q2 : String) (cache : Option (List Club)) (h : pyLower q1 = pyLower q2) :
    extract_city q1 = extract_city q2 ∧
      (extract_city q1).bind (fun cid => find_club_by_city cache cid) =
        (extract_city q2).bind (fun cid => find_club_by_city cache cid) := by
  have he : extract_city q1 = extract_city q2 := by
    unfold extract_city
    rw [h]
  exact ⟨he, by rw [he]⟩

/-- Witness for the amended claim C2, at the questions
"Who is coaching BERLIN?" and "Who is coaching berlin?". -/
theorem resolution_case_insensitive_witness :
    extract_city "Who is coaching BERLIN?" = extract_city "Who is coaching berlin?" ∧
      (extract_city "Who is coaching BERLIN?").bind
          (fun cid => find_club_by_city (some casing_roster) cid) =
        (extract_city "Who is coaching berlin?").bind
          (fun cid => find_club_by_city (some casing_roster) cid) :=
  resolution_case_insensitive_via_extraction "Who is coaching BERLIN?"
    "Who is coaching berlin?" (some casing_roster) (by decide)

/-- Claim C3: when the normalized question matches the pattern at index
`i` of the fixed order (coach(ing), about, manager, for, in) and no
earlier pattern matches, extraction returns the token of that pattern —
the first matching pattern wins. -/
theorem extract_first_matching_pattern_wins (q t : String) (i : Nat) (hi : i < 5)
    (hm : patternAt i q = some t) (hprev : ∀ j, j < i → patternAt j q = none) :
    extract_entity_logic q = some t := by
  match i, hi with
  | 0, _ =>
    have h0 : pattern_coach q = some t := hm
    simp [extract_entity_logic, h0]
  | 1, _ =>
    have h0 : pattern_coach q = none := hprev 0 (by omega)
    have h1 : pattern_about q = some t := hm
    simp [extract_entity_logic, h0, h1]
  | 2, _ =>
    have h0 : pattern_coach q = none := hprev 0 (by omega)
    have h1 : pattern_about q = none := hprev 1 (by omega)
    have h2 : pattern_manager q = some t := hm
    simp [extract_entity_logic, h0, h1, h2]
  | 3, _ =>
    have h0 : pattern_coach q = none := hprev 0 (by omega)
    have h1 : pattern_about q = none := hprev 1 (by omega)
    have h2 : pattern_manager q = none := hprev 2 (by omega)
    have h3 : pattern_for q = some t := hm
    simp [extract_entity_logic, h0, h1, h2, h3]
  | 4, _ =>
    have h0 : pattern_coach q = none := hprev 0 (by omega)
    have h1 : pattern_about q = none := hprev 1 (by omega)
    have h2 : pattern_manager q = none := hprev 2 (by omega)
    have h3 : pattern_for q = none := hprev 3 (by omega)
    have h4 : pattern_in q = some t := hm
    simp [extract_entity_logic, h0, h1, h2, h3, h4]

/-- Witness for claim C3: "what about berlin and the manager" matches
both the "about" pattern (index 1, token "berlin") and the "manager"
pattern (index 2, token "the"), and extraction returns the "about"
token. -/
theorem extract_first_matching_pattern_wins_witness :
    patternAt 2 "what about berlin and the manager" = some "the" ∧
    extract_entity_logic "what about berlin and the manager" = some "berlin" :=
  ⟨by decide,
   extract_first_matching_pattern_wins "what about berlin and the manager" "berlin" 1
     (by omega) (by decide)
     (by
       intro j hj
       have hj0 : j = 0 := by omega
       subst hj0
       decide)⟩

/-- Claim C4: for the token "pauli", `find_club_by_city` returns the
first club of the roster whose lowercased name contains the substring
"pauli", bypassing city-based matching entirely. -/
theorem resolve_pauli_special_rule (clubs : List Club) (c0 : Club)
    (h : clubs.find? (fun c => pyIn "pauli" (pyLower c.club_name)) = some c0) :
    find_club_by_city (some clubs) "pauli" = some c0 := by
  have hps : pauli_scan clubs = some c0 := (pauli_scan_eq_find clubs).trans h
  cases clubs with
  | nil => simp [List.find?] at h
  | cons c rest => simp [find_club_by_city, hps]

/-- Witness for claim C4: with a roster holding Hamburger SV before
FC St. Pauli (both of city Hamburg), resolution of "pauli" selects
FC St. Pauli, never Hamburger SV. -/
theorem resolve_pauli_special_rule_witness :
    List.find? (fun c => pyIn "pauli" (pyLower c.club_name)) [hamburger_sv, st_pauli] =
      some st_pauli ∧
    find_club_by_city (some [hamburger_sv, st_pauli]) "pauli" = some st_pauli :=
  ⟨by decide, resolve_pauli_special_rule [hamburger_sv, st_pauli] st_pauli (by decide)⟩

/-- Claim C9: the extractor keeps the trailing "s" on the manager
pattern: the greedy capture group of the regular expression
consumes the "s" and the optional literal matches empty, so
"Who is heidenheims manager?" yields "heidenheims", while the
function docstring and the specification state "heidenheim". -/
theorem extract_city_keeps_trailing_s :
    extract_city "Who is heidenheims manager?" = some "heidenheims" := by decide

/-- Claim C10: when the token is "pauli" but no club name of the roster
contains "pauli", the special rule does not return absent; resolution
falls through to the general substring scan over cities and names. -/
theorem pauli_token_falls_through_to_general_matching (clubs : List Club)
    (h : ∀ c ∈ clubs, pyIn "pauli" (pyLower c.club_name) = false) :
    find_club_by_city (some clubs) "pauli" = normal_scan "pauli" clubs := by
  have hps : pauli_scan clubs = none := by
    rw [pauli_scan_eq_find, List.find?_eq_none]
    intro c hc
    simp [h c hc]
  cases clubs with
  | nil => rfl
  | cons c rest => simp [find_club_by_city, hps]

/-- Witness for claim C10: a roster whose only club has no "pauli" in
its name but city "Paulital"; the general rules then resolve "pauli"
to that club. -/
theorem pauli_token_falls_through_witness :
    find_club_by_city (some [pauli_city_club]) "pauli" =
      normal_scan "pauli" [pauli_city_club] ∧
    normal_scan "pauli" [pauli_city_club] = some pauli_city_club :=
  ⟨pauli_token_falls_through_to_general_matching [pauli_city_club] (by decide), by decide⟩

/-- Claim C1: `process_query` always returns a string and never lets an
exception escape: the output is either the extraction-miss string, a
resolution-miss string, a coach-miss string, the generic string for an
escaped internal exception (in particular a knowledge-graph retrieval
failure), or a successfully built prompt — and the cached roster state
is returned unchanged, so further queries remain possible. -/
theorem process_query_never_raises_and_preserves_cache
    (o : Oracles) (s : ChatbotState) (q : String) :
    (process_query o s q).2 = s ∧
    (((extract_city q = none ∨ extract_city q = some "") ∧
        (process_query o s q).1 = format_error_response extraction_miss_msg) ∨
     (∃ cid, extract_city q = some cid ∧ cid ≠ "" ∧
        find_club_by_city s.clubs_cache cid = none ∧
        (process_query o s q).1 = format_error_response (resolution_miss_msg cid)) ∨
     (∃ cid club, extract_city q = some cid ∧ cid ≠ "" ∧
        find_club_by_city s.clubs_cache cid = some club ∧
        o.get_coach_for_club club.club_qid = Except.ok none ∧
        (process_query o s q).1 = format_error_response (coach_miss_msg club.club_name)) ∨
     (∃ cid club, extract_city q = some cid ∧ cid ≠ "" ∧
        find_club_by_city s.clubs_cache cid = some club ∧
        o.get_coach_for_club club.club_qid = Except.error () ∧
        (process_query o s q).1 = format_error_response generic_error_msg) ∨
     (∃ cid club coach, extract_city q = some cid ∧ cid ≠ "" ∧
        find_club_by_city s.clubs_cache cid = some club ∧
        o.get_coach_for_club club.club_qid = Except.ok (some coach) ∧
        (process_query o s q).1 =
          build_prompt q club.club_name club.city coach.name
            (o.get_coach_intro coach.name))) := by
  refine ⟨process_query_snd o s q, ?_⟩
  cases hE : extract_city q with
  | none =>
    exact Or.inl ⟨Or.inl rfl, by simp [process_query, process_query_body, hE]⟩
  | some cid =>
    by_cases hc : cid = ""
    · subst hc
      exact Or.inl ⟨Or.inr rfl, by simp [process_query, process_query_body, hE]⟩
    · cases hF : find_club_by_city s.clubs_cache cid with
      | none =>
        exact Or.inr (Or.inl ⟨cid, rfl, hc, hF,
          by simp [process_query, process_query_body, hE, hc, hF]⟩)
      | some club =>
        cases hC : o.get_coach_for_club club.club_qid with
        | error e =>
          cases e
          exact Or.inr (Or.inr (Or.inr (Or.inl ⟨cid, club, rfl, hc, hF, hC,
            by simp [process_query, process_query_body, hE, hc, hF, hC]⟩)))
        | ok oc =>
          cases oc with
          | none =>
            exact Or.inr (Or.inr (Or.inl ⟨cid, club, rfl, hc, hF, hC,
              by simp [process_query, process_query_body, hE, hc, hF, hC]⟩))
          | some coach =>
            exact Or.inr (Or.inr (Or.inr (Or.inr ⟨cid, club, coach, rfl, hc, hF, hC,
              by simp [process_query, process_query_body, hE, hc, hF, hC]⟩)))

/-- Claim C5: when extraction, club resolution and the coach fetch all
succeed, the biography result never changes the outcome: the pipeline
does not short-circuit and returns the built prompt for whatever the
biography fetch yielded; when the biography is absent the rendered
prompt still contains the city, the club name, the coach name, and the
explicit no-biography sentence. -/
theorem biography_absence_does_not_short_circuit
    (o : Oracles) (s : ChatbotState) (q cid : String) (club : Club) (coach : Coach)
    (bio : Option String)
    (hE : extract_city q = some cid) (hne : cid ≠ "")
    (hF : find_club_by_city s.clubs_cache cid = some club)
    (hC : o.get_coach_for_club club.club_qid = Except.ok (some coach))
    (hI : o.get_coach_intro coach.name = bio) :
    (process_query o s q).1 = build_prompt q club.club_name club.city coach.name bio ∧
    (bio = none →
      (process_query o s q).1 =
        get_system_prompt ++ "\n\nRETRIEVED CONTEXT:\n" ++
          ("City: " ++ club.city ++ "\nClub: " ++ club.club_name ++
            "\nCurrent Coach: " ++ coach.name ++ "\n" ++ no_bio_sentence) ++
          "\n\nUSER QUESTION:\n" ++ q ++
          "\n\nPlease answer the user\x27s question using the provided context.") := by
  have h1 : (process_query o s q).1 =
      build_prompt q club.club_name club.city coach.name bio := by
    simp [process_query, process_query_body, hE, hne, hF, hC, hI]
  refine ⟨h1, fun hn => ?_⟩
  subst hn
  rw [h1]
  rfl

/-- Witness for claim C5: the Berlin scenario with an absent biography
still yields the built prompt. -/
theorem biography_absence_witness :
    (process_query no_bio_oracles scenario_state "Who is coaching Berlin?").1 =
      build_prompt "Who is coaching Berlin?" "1. FC Union Berlin" "Berlin"
        "Steffen Baumgart" none :=
  (biography_absence_does_not_short_circuit no_bio_oracles scenario_state
    "Who is coaching Berlin?" "berlin" union_berlin scenario_coach none
    (by decide) (by decide) (by decide) rfl rfl).1

/-- Claim C6: with an absent or empty roster cache, `find_club_by_city`
returns absent immediately and `process_query` returns a formatted error
string whose value is independent of both network oracles — no network
call is attempted during the query. -/
theorem empty_roster_fails_fast
    (o1 o2 : Oracles) (s : ChatbotState) (q cid : String)
    (h : s.clubs_cache = none ∨ s.clubs_cache = some []) :
    find_club_by_city s.clubs_cache cid = none ∧
    (process_query o1 s q).1 = (process_query o2 s q).1 ∧
    (∃ m, (process_query o1 s q).1 = format_error_response m) := by
  have hf : ∀ t, find_club_by_city s.clubs_cache t = none := by
    intro t
    rcases h with h | h <;> simp [find_club_by_city, h]
  refine ⟨hf cid, ?_, ?_⟩
  · cases hE : extract_city q with
    | none => simp [process_query, process_query_body, hE]
    | some c =>
      by_cases hc : c = ""
      · simp [process_query, process_query_body, hE, hc]
      · simp [process_query, process_query_body, hE, hc, hf]
  · cases hE : extract_city q with
    | none =>
      exact ⟨extraction_miss_msg, by simp [process_query, process_query_body, hE]⟩
    | some c =>
      by_cases hc : c = ""
      · exact ⟨extraction_miss_msg, by simp [process_query, process_query_body, hE, hc]⟩
      · exact ⟨resolution_miss_msg c,
          by simp [process_query, process_query_body, hE, hc, hf]⟩

/-- Witness for claim C6: with the uninitialized state, a raising coach
oracle and a non-raising one give the same error output. -/
theorem empty_roster_fails_fast_witness :
    find_club_by_city uninitialized_state.clubs_cache "berlin" = none ∧
    (process_query failing_oracles uninitialized_state "Who is coaching Berlin?").1 =
      (process_query no_coach_oracles uninitialized_state "Who is coaching Berlin?").1 ∧
    (∃ m, (process_query failing_oracles uninitialized_state "Who is coaching Berlin?").1 =
      format_error_response m) :=
  empty_roster_fails_fast failing_oracles no_coach_oracles uninitialized_state
    "Who is coaching Berlin?" "berlin" (Or.inl rfl)

/-- Claim C7: the rendered prompt is exactly the static system
instruction block, then the retrieved-context fields (city, club, coach,
and the biography or the no-biography sentence), then the original
question verbatim — no truncation and no re-casing of the question —
followed by the fixed closing line. -/
theorem build_prompt_structure (q club_name city coach_name : String) (bio : Option String) :
    ∃ bio_part,
      build_prompt q club_name city coach_name bio =
        get_system_prompt ++ "\n\nRETRIEVED CONTEXT:\n" ++
          ("City: " ++ city ++ "\nClub: " ++ club_name ++ "\nCurrent Coach: " ++
            coach_name ++ "\n" ++ bio_part) ++
          "\n\nUSER QUESTION:\n" ++ q ++
          "\n\nPlease answer the user\x27s question using the provided context." ∧
      (bio_part = no_bio_sentence ∨
        ∃ b, bio = some b ∧ bio_part = "\nCoach Information from Wikipedia:\n" ++ b) := by
  cases bio with
  | none => exact ⟨no_bio_sentence, rfl, Or.inl rfl⟩
  | some b =>
    by_cases hb : b.isEmpty
    · refine ⟨no_bio_sentence, ?_, Or.inl rfl⟩
      simp [build_prompt, build_context, hb]
    · refine ⟨"\nCoach Information from Wikipedia:\n" ++ b, ?_, Or.inr ⟨b, rfl, rfl⟩⟩
      simp [build_prompt, build_context, hb]

/-- Claim C8 (counterexample): in the Berlin scenario the rendered
prompt does not end with "USER QUESTION:" plus a newline plus the user
question — a fixed closing line follows, so the user question is not the
final content of the prompt. -/
theorem scenario_prompt_not_ending_with_question :
    strEndsWith scenario_prompt "USER QUESTION:\nWho is coaching Berlin?" = false := by
  decide

/-- Claim C8 (amended): in the Berlin scenario the rendered prompt
contains "Current Coach: Steffen Baumgart" and the biography text, and
ends with "USER QUESTION:" plus a newline plus "Who is coaching Berlin?"
followed by the fixed closing line "Please answer the user's question
using the provided context.". -/
theorem scenario_prompt_contents :
    (∃ a b, scenario_prompt = a ++ "Current Coach: Steffen Baumgart" ++ b) ∧
    (∃ a b, scenario_prompt = a ++ scenario_bio ++ b) ∧
    strEndsWith scenario_prompt
      "USER QUESTION:\nWho is coaching Berlin?\n\nPlease answer the user\x27s question using the provided context." =
      true := by
  refine ⟨⟨get_system_prompt ++ "\n\nRETRIEVED CONTEXT:\nCity: Berlin\nClub: 1. FC Union Berlin\n",
      "\n\nCoach Information from Wikipedia:\n" ++ scenario_bio ++
        "\n\nUSER QUESTION:\nWho is coaching Berlin?\n\nPlease answer the user\x27s question using the provided context.",
      by decide⟩,
    ⟨get_system_prompt ++
        "\n\nRETRIEVED CONTEXT:\nCity: Berlin\nClub: 1. FC Union Berlin\nCurrent Coach: Steffen Baumgart\n\nCoach Information from Wikipedia:\n",
      "\n\nUSER QUESTION:\nWho is coaching Berlin?\n\nPlease answer the user\x27s question using the provided context.",
      by decide⟩,
    by decide⟩
